import Mathlib

/-!
Verification of the risk-and-sizing core of the `quant-multistrat` trading
engine: the global risk kernel (`src/engine/src/risk/kernel.rs`) and the
macro futures strategy sleeve
(`src/engine/src/strategies/macro_futures_sleeve.rs`), shallowly embedded
in Lean 4.

Modelling conventions (used consistently below):
* Rust `f64` is modelled as `ℚ`.  Every rational is finite, so the source's
  `is_finite` guards are identically true; each such dead branch is noted in a
  comment where it occurs in the source.
* Rust `u32`/`usize` are modelled as `ℕ`, and `i32`/`i8` as `ℤ` (the claims
  under study live far from the wrap-around range of the machine types).
* `f64::exp` (used exactly once, in the logistic conviction map) is modelled
  as an uninterpreted function field `exp_model : ℚ → ℚ` carried by the
  sleeve value.  Every theorem below holds for an arbitrary model, hence in
  particular for the actual floating-point exponential.
* `HashMap` iteration is made deterministic, as the repository spec requires
  of a faithful reimplementation: instrument-keyed maps iterate in the fixed
  order `instrumentOrder = [Mes, Mnq, SixE]`; `current_positions` is a total
  function with default 0 (the source reads it with `unwrap_or(0)`); the
  `histories` map is a list of `InstrumentHistory` entries keyed by their
  `instrument` field.
* In-place mutation (`&mut`) is modelled by returning the updated values:
  `evaluate` returns the updated portfolio peak equity, the updated sleeve
  states and the envelopes; `apply_cashflow_reset` returns the updated
  kernel.  The `expect("missing sleeve config")` panic in `evaluate` is
  modelled by `Option`.
-/

/-- Rust `f64::clamp(lo, hi)` for `lo ≤ hi` (the only way the source calls it). -/
def clampQ (lo hi x : ℚ) : ℚ := max lo (min x hi)

/-- Rust `f64::round` (round half away from zero), then `as i32`/`as i64`. -/
def roundAway (x : ℚ) : ℤ := if 0 ≤ x then ⌊x + 1/2⌋ else ⌈x - 1/2⌉

/-! ## `src/engine/src/risk/kernel.rs`: data model -/

inductive SleeveId
  | equityLongShort
  | statArbResidual
  | microstructureIntraday
  | optionsVolPremium
  | microFuturesMacroTrend
  deriving DecidableEq, Repr

inductive PortfolioRiskState
  | normal
  | caution
  | stress
  deriving DecidableEq, Repr

inductive HaltState
  | none
  | halt
  | kill
  deriving DecidableEq, Repr

structure SleeveRiskConfig where
  sleeve_id : SleeveId
  capital_alloc_usd : ℚ
  max_single_pos_risk_frac : ℚ
  halt_dd_frac : ℚ
  kill_dd_frac : ℚ
  max_concurrent_positions : ℕ
  deriving DecidableEq, Repr

structure PortfolioRiskConfig where
  initial_equity_usd : ℚ
  halt_dd_frac : ℚ
  kill_dd_frac : ℚ
  max_leverage : ℚ
  rebalance_drift_frac : ℚ
  max_global_positions : ℕ
  deriving DecidableEq, Repr

structure SleeveState where
  sleeve_id : SleeveId
  equity_usd : ℚ
  realized_pnl_usd : ℚ
  unrealized_pnl_usd : ℚ
  peak_equity_usd : ℚ
  open_positions : ℕ
  deriving DecidableEq, Repr

structure PortfolioState where
  cash_usd : ℚ
  open_pnl_usd : ℚ
  accrued_interest_usd : ℚ
  peak_equity_usd : ℚ
  total_notional_exposure : ℚ
  current_leverage : ℚ
  deriving DecidableEq, Repr

structure MarginState where
  internal_margin_req_usd : ℚ
  broker_margin_req_usd : ℚ
  equity_usd : ℚ
  deriving DecidableEq, Repr

structure VolatilityRegime where
  rv10_annualized : ℚ
  vix_level : ℚ
  vix_term_slope : ℚ
  regime_scalar : ℚ
  deriving DecidableEq, Repr

structure SleeveRiskEnvelope where
  sleeve_id : SleeveId
  sleeve_halt : HaltState
  portfolio_halt : HaltState
  max_position_size_usd : ℚ
  max_concurrent_positions : ℕ
  exposure_remaining_usd : ℚ
  margin_remaining_usd : ℚ
  volatility_regime_scalar : ℚ
  leverage_scalar : ℚ
  portfolio_risk_state : PortfolioRiskState
  deriving DecidableEq, Repr

structure GlobalRiskKernelConfig where
  portfolio : PortfolioRiskConfig
  sleeves : List SleeveRiskConfig
  deriving DecidableEq, Repr

structure GlobalRiskKernel where
  config : GlobalRiskKernelConfig
  internal_portfolio_peak_equity : ℚ
  deriving DecidableEq, Repr

/-- `GlobalRiskKernel::new`. -/
def GlobalRiskKernel.new (config : GlobalRiskKernelConfig) : GlobalRiskKernel :=
  { config, internal_portfolio_peak_equity := config.portfolio.initial_equity_usd }

/-! ## `kernel.rs`: scalar derivations -/

/-- `derive_volatility_scalar`.  Each Rust branch returns
`v.max(0.5).min(1.3)` for a literal `v`. -/
def derive_volatility_scalar (vol : VolatilityRegime) : ℚ :=
  if 35 ≤ vol.vix_level ∨ 30 ≤ vol.rv10_annualized ∨ vol.vix_term_slope < 0 then
    min (max (55/100) (1/2)) (13/10)
  else if 25 ≤ vol.vix_level ∨ 20 ≤ vol.rv10_annualized then
    min (max (80/100) (1/2)) (13/10)
  else if vol.vix_level < 15 ∧ vol.rv10_annualized < 12 ∧ 1/2 < vol.vix_term_slope then
    min (max (125/100) (1/2)) (13/10)
  else 1

/-- `derive_leverage_scalar`: note the defensive `max_leverage.max(0.1)`
denominator floor in the source. -/
def derive_leverage_scalar (portfolio : PortfolioState) (pcfg : PortfolioRiskConfig) : ℚ :=
  let max_lev := max pcfg.max_leverage (1/10)
  let cur_lev := max portfolio.current_leverage 0
  let x := cur_lev / max_lev
  if 1 ≤ x then 0
  else
    let scalar :=
      if x ≤ 3/10 then 110/100 - 25/100 * x
      else if x ≤ 7/10 then 103/100 - 20/100 * (x - 3/10)
      else 95/100 - 217/100 * (x - 7/10)
    clampQ 0 (110/100) scalar

/-- The leverage-scalar formula exactly as the specification words it
(claim C7): relative leverage `x = current_leverage / max_leverage` with only
the numerator clamped to be nonnegative — no `0.1` floor on the denominator. -/
def leverage_scalar_claimed (portfolio : PortfolioState) (pcfg : PortfolioRiskConfig) : ℚ :=
  let x := max portfolio.current_leverage 0 / pcfg.max_leverage
  clampQ 0 (110/100)
    (if 1 ≤ x then 0
     else if x ≤ 3/10 then 110/100 - 25/100 * x
     else if x ≤ 7/10 then 103/100 - 20/100 * (x - 3/10)
     else 95/100 - 217/100 * (x - 7/10))

/-- The claim C7 formula amended with the denominator floor the source
actually applies: `x = max(current_leverage, 0) / max(max_leverage, 0.1)`. -/
def leverage_scalar_amended (portfolio : PortfolioState) (pcfg : PortfolioRiskConfig) : ℚ :=
  let x := max portfolio.current_leverage 0 / max pcfg.max_leverage (1/10)
  clampQ 0 (110/100)
    (if 1 ≤ x then 0
     else if x ≤ 3/10 then 110/100 - 25/100 * x
     else if x ≤ 7/10 then 103/100 - 20/100 * (x - 3/10)
     else 95/100 - 217/100 * (x - 7/10))

/-! ## `kernel.rs`: `evaluate` -/

/-- Portfolio equity, step 1 of `evaluate`:
`cash_usd + open_pnl_usd + accrued_interest_usd`. -/
def equity_now (portfolio : PortfolioState) : ℚ :=
  portfolio.cash_usd + portfolio.open_pnl_usd + portfolio.accrued_interest_usd

/-- The kernel's internal high-water mark after the update at the top of
`evaluate` (`if equity_now > peak { peak = equity_now }`). -/
def kernelPeakAfter (k : GlobalRiskKernel) (portfolio : PortfolioState) : ℚ :=
  if equity_now portfolio > k.internal_portfolio_peak_equity then equity_now portfolio
  else k.internal_portfolio_peak_equity

/-- The locals of `evaluate` that are fixed before the per-sleeve loop
(steps 1–4 of the source), packaged so the loop body can be a standalone
definition. -/
structure KernelLoopEnv where
  cfgs : List SleeveRiskConfig
  portfolio_halt_state : HaltState
  portfolio_risk_state : PortfolioRiskState
  exposure_remaining_usd : ℚ
  margin_remaining_usd : ℚ
  volatility_regime_scalar : ℚ
  leverage_scalar : ℚ
  remaining_slots : ℕ
  extra_per_sleeve : ℕ

/-- Steps 1–4 of `evaluate`: portfolio drawdown and halt state, exposure and
margin headroom, the two scalars, and the global concurrency budget. -/
def kernelLoopEnv (k : GlobalRiskKernel) (portfolio : PortfolioState)
    (sleeves : List SleeveState) (margin : MarginState) (vol : VolatilityRegime) :
    KernelLoopEnv :=
  let pcfg := k.config.portfolio
  let eq_now := equity_now portfolio
  let peak := kernelPeakAfter k portfolio
  let dd_frac := if 0 < peak then eq_now / peak - 1 else 0
  let portfolio_halt_state : HaltState :=
    if dd_frac ≤ pcfg.kill_dd_frac then .kill
    else if dd_frac ≤ pcfg.halt_dd_frac then .halt
    else .none
  let portfolio_risk_state : PortfolioRiskState :=
    if dd_frac ≤ pcfg.kill_dd_frac then .stress
    else if dd_frac ≤ pcfg.halt_dd_frac then .caution
    else .normal
  let max_exposure_allowed := pcfg.max_leverage * eq_now
  let exposure_remaining_usd := max (max_exposure_allowed - portfolio.total_notional_exposure) 0
  let binding_margin_req := max margin.internal_margin_req_usd margin.broker_margin_req_usd
  let margin_remaining_usd := max (eq_now - binding_margin_req) 0
  let total_open_positions := (sleeves.map (·.open_positions)).sum
  let max_global := pcfg.max_global_positions
  let remaining_slots := if max_global ≤ total_open_positions then 0 else max_global - total_open_positions
  let active_sleeves := sleeves.length
  let extra_per_sleeve := if 0 < remaining_slots ∧ 0 < active_sleeves then remaining_slots / active_sleeves else 0
  { cfgs := k.config.sleeves
    portfolio_halt_state
    portfolio_risk_state
    exposure_remaining_usd
    margin_remaining_usd
    volatility_regime_scalar := derive_volatility_scalar vol
    leverage_scalar := derive_leverage_scalar portfolio pcfg
    remaining_slots
    extra_per_sleeve }

/-- The body of the per-sleeve loop of `evaluate` (step 5): returns the
updated sleeve state (peak-equity HWM update) and the emitted envelope, or
`none` where the source panics on a missing sleeve config. -/
def evalSleeve (E : KernelLoopEnv) (sleeve : SleeveState) :
    Option (SleeveState × SleeveRiskEnvelope) :=
  match E.cfgs.find? (fun c => c.sleeve_id = sleeve.sleeve_id) with
  | Option.none => Option.none
  | some scfg =>
    let equity := sleeve.equity_usd
    let peak := if equity > sleeve.peak_equity_usd then equity else sleeve.peak_equity_usd
    let dd_frac_sleeve := if 0 < peak then equity / peak - 1 else 0
    let sleeve_halt_state : HaltState :=
      if dd_frac_sleeve ≤ scfg.kill_dd_frac then .kill
      else if dd_frac_sleeve ≤ scfg.halt_dd_frac then .halt
      else .none
    let dyn_max_concurrent :=
      if E.remaining_slots = 0 then sleeve.open_positions
      else min scfg.max_concurrent_positions (sleeve.open_positions + E.extra_per_sleeve)
    let base_pos_usd := scfg.capital_alloc_usd * scfg.max_single_pos_risk_frac
    let sized := base_pos_usd * E.volatility_regime_scalar * E.leverage_scalar
    let sized₁ :=
      if E.margin_remaining_usd ≤ 0 ∨ E.exposure_remaining_usd ≤ 0 then 0
      else min sized E.exposure_remaining_usd
    let max_position_size_usd :=
      if E.portfolio_halt_state = .halt ∨ E.portfolio_halt_state = .kill
          ∨ sleeve_halt_state = .halt ∨ sleeve_halt_state = .kill then 0
      else sized₁
    some ({ sleeve with peak_equity_usd := peak },
      { sleeve_id := sleeve.sleeve_id
        sleeve_halt := sleeve_halt_state
        portfolio_halt := E.portfolio_halt_state
        max_position_size_usd
        max_concurrent_positions := dyn_max_concurrent
        exposure_remaining_usd := E.exposure_remaining_usd
        margin_remaining_usd := E.margin_remaining_usd
        volatility_regime_scalar := E.volatility_regime_scalar
        leverage_scalar := E.leverage_scalar
        portfolio_risk_state := E.portfolio_risk_state })

/-- The per-sleeve loop of `evaluate` over the whole sleeve array. -/
def evalSleeves (E : KernelLoopEnv) :
    List SleeveState → Option (List (SleeveState × SleeveRiskEnvelope))
  | [] => some []
  | s :: rest =>
    match evalSleeve E s, evalSleeves E rest with
    | some p, some ps => some (p :: ps)
    | _, _ => Option.none

/-- The visible outcome of one `evaluate` call: the kernel's updated internal
portfolio peak equity, the updated (`&mut`) sleeve states, and the returned
envelopes. -/
structure EvaluateResult where
  kernel_peak : ℚ
  sleeves : List SleeveState
  envelopes : List SleeveRiskEnvelope
  deriving DecidableEq, Repr

/-- `GlobalRiskKernel::evaluate`.  (`_now_ts` is unused in the source and
omitted.) -/
def evaluate (k : GlobalRiskKernel) (portfolio : PortfolioState)
    (sleeves : List SleeveState) (margin : MarginState) (vol : VolatilityRegime) :
    Option EvaluateResult :=
  match evalSleeves (kernelLoopEnv k portfolio sleeves margin vol) sleeves with
  | Option.none => Option.none
  | some pairs => some ⟨kernelPeakAfter k portfolio, pairs.map Prod.fst, pairs.map Prod.snd⟩

/-- `GlobalRiskKernel::apply_cashflow_reset` (the 20% cashflow reset rule),
returning the updated kernel. -/
def apply_cashflow_reset (k : GlobalRiskKernel) (equity_before equity_after : ℚ) :
    GlobalRiskKernel :=
  if equity_before ≤ 0 then
    { k with internal_portfolio_peak_equity := equity_after }
  else
    let net_cf := equity_after - equity_before
    let cf_frac := |net_cf| / equity_before
    if 20/100 ≤ cf_frac then
      { k with internal_portfolio_peak_equity := equity_after }
    else k

/-! ## `src/engine/src/strategies/macro_futures_sleeve.rs`: data model -/

/-- `EngineHealth` from `src/engine/src/execution.rs`. -/
inductive EngineHealth
  | healthy
  | degraded
  deriving DecidableEq, Repr

inductive FutureInstrument
  | mes
  | mnq
  | sixE
  deriving DecidableEq, Repr

/-- The fixed instrument enumeration used as the deterministic iteration
order for instrument-keyed maps (the repository spec mandates a stable
instrument ordering for a faithful reimplementation). -/
def instrumentOrder : List FutureInstrument := [.mes, .mnq, .sixE]

inductive SleeveRiskSanity
  | ok
  | exceedsCap
  deriving DecidableEq, Repr

structure FxCarryFeatures where
  carry_rate_annualized : ℚ
  carry_rate_vol_252d : ℚ
  deriving DecidableEq, Repr

/-- `DailyFeatureBar`; `ts : DateTime<Utc>` is modelled as an integer
timestamp (it is never inspected by the sizing logic), and the Rust field
`open` is rendered `open_` because `open` is a Lean keyword. -/
structure DailyFeatureBar where
  ts : ℤ
  open_ : ℚ
  high : ℚ
  low : ℚ
  close : ℚ
  volume : ℚ
  atr_14 : ℚ
  ret_20d : ℚ
  ret_60d : ℚ
  ret_120d : ℚ
  vol_20d : ℚ
  vol_60d : ℚ
  vol_120d : ℚ
  highest_close_50d : ℚ
  lowest_close_50d : ℚ
  fx_carry : Option FxCarryFeatures
  deriving DecidableEq, Repr

structure InstrumentHistory where
  instrument : FutureInstrument
  bars : List DailyFeatureBar
  deriving DecidableEq, Repr

structure MacroScalars where
  as_of : ℤ
  risk_on_scalar : ℚ
  usd_scalar : ℚ
  deriving DecidableEq, Repr

structure InstrumentRiskBudget where
  max_risk_per_position_eur : ℚ
  max_contracts : ℕ
  deriving DecidableEq, Repr

structure FuturesRiskBudget where
  mes : InstrumentRiskBudget
  mnq : InstrumentRiskBudget
  sixe : InstrumentRiskBudget
  max_total_contracts : ℕ
  deriving DecidableEq, Repr

/-- The per-instrument budget selection performed by the `match` at the top
of the planning loop in `plan_contracts_with_risk_internal`. -/
def FuturesRiskBudget.budgetFor (b : FuturesRiskBudget) : FutureInstrument → InstrumentRiskBudget
  | .mes => b.mes
  | .mnq => b.mnq
  | .sixE => b.sixe

inductive SignalReason
  | normal
  | insufficientHistory
  | invalidData
  | belowThreshold
  deriving DecidableEq, Repr

structure RawSignal where
  trend_score : ℚ
  carry_score : ℚ
  deriving DecidableEq, Repr

structure MacroAdjustedSignal where
  trend_macro_adjusted : ℚ
  carry_macro_adjusted : ℚ
  deriving DecidableEq, Repr

structure FinalTradeSignal where
  direction : ℤ
  conviction : ℚ
  effective_score : ℚ
  deriving DecidableEq, Repr

structure InstrumentSignal where
  instrument : FutureInstrument
  final_signal : FinalTradeSignal
  raw : RawSignal
  macro_adj : MacroAdjustedSignal
  reason : SignalReason
  deriving DecidableEq, Repr

structure FuturesPlannedPosition where
  instrument : FutureInstrument
  target_direction : ℤ
  target_notional_usd : ℚ
  deriving DecidableEq, Repr

structure InstrumentRiskIntent where
  instrument : FutureInstrument
  desired_risk_frac : ℚ
  signal : InstrumentSignal
  deriving DecidableEq, Repr

structure FuturesPlannedContracts where
  instrument : FutureInstrument
  target_contracts : ℤ
  deriving DecidableEq, Repr

structure FuturesPlannedRisk where
  instrument : FutureInstrument
  target_contracts : ℤ
  risk_per_contract_eur : ℚ
  total_risk_eur : ℚ
  deriving DecidableEq, Repr

structure FuturesOrderIntent where
  instrument : FutureInstrument
  delta_contracts : ℤ
  deriving DecidableEq, Repr

structure FuturesSleeveAggregate where
  total_contracts_signed : ℤ
  total_contracts_abs : ℤ
  total_risk_eur : ℚ
  total_notional_usd : ℚ
  instrument_count : ℕ
  deriving DecidableEq, Repr

structure FuturesSleeveContext where
  as_of : ℤ
  histories : List InstrumentHistory
  macro_scalars : MacroScalars
  risk_envelope : SleeveRiskEnvelope
  current_positions : FutureInstrument → ℤ
  eur_per_usd : ℚ
  engine_health : EngineHealth

structure MacroFuturesSleeveConfig where
  trend_weight_20d : ℚ
  trend_weight_60d : ℚ
  trend_weight_120d : ℚ
  breakout_weight : ℚ
  trend_score_clip : ℚ
  carry_score_clip : ℚ
  carry_vol_floor : ℚ
  carry_weight_6e : ℚ
  effective_score_clip : ℚ
  logistic_k : ℚ
  logistic_m : ℚ
  min_effective_score : ℚ
  min_conviction : ℚ
  atr_stop_multiple_index : ℚ
  atr_stop_multiple_fx : ℚ
  deriving DecidableEq, Repr

/-- `impl Default for MacroFuturesSleeveConfig` (the V1 calibration). -/
def MacroFuturesSleeveConfig.default : MacroFuturesSleeveConfig :=
  { trend_weight_20d := 45/100
    trend_weight_60d := 30/100
    trend_weight_120d := 15/100
    breakout_weight := 10/100
    trend_score_clip := 3
    carry_score_clip := 2
    carry_vol_floor := 25/100
    carry_weight_6e := 1/2
    effective_score_clip := 5
    logistic_k := 13/10
    logistic_m := 13/10
    min_effective_score := 1
    min_conviction := 30/100
    atr_stop_multiple_index := 25/100
    atr_stop_multiple_fx := 1/2 }

/-- `MacroFuturesSleeve`; the extra field `exp_model` is the uninterpreted
stand-in for the ambient `f64::exp` used by the logistic conviction map. -/
structure MacroFuturesSleeve where
  cfg : MacroFuturesSleeveConfig
  exp_model : ℚ → ℚ

/-! ## `macro_futures_sleeve.rs`: signal pipeline -/

/-- `validate_history`: `some reason` models `Err(reason)`. -/
def validate_history (hist : InstrumentHistory) : Option SignalReason :=
  if hist.bars.length < 120 then some .insufficientHistory else Option.none

/-- `validate_features`.  The source's `pos x` is `x.is_finite() && x > 0.0`
and `finite x` is `x.is_finite()`; over `ℚ` the finiteness conjuncts are
identically true, so the pure-finiteness check on the three returns and on
`carry_rate_annualized` has no residue here. -/
def validate_features (bar : DailyFeatureBar) : Option SignalReason :=
  if ¬(0 < bar.open_ ∧ 0 < bar.high ∧ 0 < bar.low ∧ 0 < bar.close) then some .invalidData
  else if bar.volume < 0 then some .invalidData
  else if ¬(0 < bar.atr_14 ∧ 0 < bar.vol_20d ∧ 0 < bar.vol_60d ∧ 0 < bar.vol_120d) then
    some .invalidData
  else if ¬(0 < bar.highest_close_50d ∧ 0 < bar.lowest_close_50d) then some .invalidData
  else
    match bar.fx_carry with
    | Option.none => Option.none
    | some fx => if fx.carry_rate_vol_252d ≤ 0 then some .invalidData else Option.none

/-- `flat_signal`. -/
def flat_signal (inst : FutureInstrument) (reason : SignalReason) : InstrumentSignal :=
  { instrument := inst
    final_signal := ⟨0, 0, 0⟩
    raw := ⟨0, 0⟩
    macro_adj := ⟨0, 0⟩
    reason }

/-- `compute_carry_raw`.  `f64::EPSILON` is `2⁻⁵²`. -/
def compute_carry_raw (s : MacroFuturesSleeve) (inst : FutureInstrument)
    (last : DailyFeatureBar) : ℚ :=
  match inst with
  | .sixE =>
    match last.fx_carry with
    | Option.none => 0
    | some fx =>
      let vol_floor := max s.cfg.carry_vol_floor (1 / 4503599627370496)
      let denom := max fx.carry_rate_vol_252d vol_floor
      let z := fx.carry_rate_annualized / denom
      let clip := |s.cfg.carry_score_clip|
      clampQ (-clip) clip z
  | _ => 0

/-- `compute_trend_raw`. -/
def compute_trend_raw (s : MacroFuturesSleeve) (bars : List DailyFeatureBar)
    (_inst : FutureInstrument) : ℚ :=
  match bars.getLast? with
  | Option.none => 0
  | some last =>
    let z20 := last.ret_20d / last.vol_20d
    let z60 := last.ret_60d / last.vol_60d
    let z120 := last.ret_120d / last.vol_120d
    let brk : ℚ :=
      if last.highest_close_50d < last.close then 1
      else if last.close < last.lowest_close_50d then -1
      else 0
    let raw := s.cfg.trend_weight_20d * z20 + s.cfg.trend_weight_60d * z60
      + s.cfg.trend_weight_120d * z120 + s.cfg.breakout_weight * brk
    clampQ (-s.cfg.trend_score_clip) s.cfg.trend_score_clip raw

/-- `apply_macro` in the source (renamed to avoid a Lean keyword):
instrument-specific scaling of the raw scores by the macro scalars. -/
def apply_macro_scalars (s : MacroFuturesSleeve) (inst : FutureInstrument)
    (raw : RawSignal) (macros : MacroScalars) : MacroAdjustedSignal :=
  let trend_scalar :=
    match inst with
    | .mes => macros.risk_on_scalar
    | .mnq => macros.risk_on_scalar
    | .sixE => macros.risk_on_scalar * macros.usd_scalar
  let carry_scalar :=
    match inst with
    | .sixE => s.cfg.carry_weight_6e * macros.usd_scalar
    | _ => 0
  { trend_macro_adjusted := raw.trend_score * trend_scalar
    carry_macro_adjusted := raw.carry_score * carry_scalar }

/-- `compute_effective_score`. -/
def compute_effective_score (s : MacroFuturesSleeve) (inst : FutureInstrument)
    (macro_adj : MacroAdjustedSignal) : ℚ :=
  let eff := macro_adj.trend_macro_adjusted
    + (match inst with | .sixE => macro_adj.carry_macro_adjusted | _ => 0)
  let clip := |s.cfg.effective_score_clip|
  clampQ (-clip) clip eff

/-- `compute_conviction`: the logistic map `1 / (1 + exp(−k·(|eff| − m)))`
(the `is_finite` guard on the input is identically true over `ℚ`). -/
def compute_conviction (s : MacroFuturesSleeve) (effective_score : ℚ) : ℚ :=
  let x := |effective_score|
  let z := s.cfg.logistic_k * (x - s.cfg.logistic_m)
  let c := 1 / (1 + s.exp_model (-z))
  clampQ 0 1 c

/-- `build_final_signal` (the non-finite defensive branch is dead over `ℚ`). -/
def build_final_signal (s : MacroFuturesSleeve) (effective_score conviction : ℚ) :
    FinalTradeSignal × SignalReason :=
  let below_effective := |effective_score| < s.cfg.min_effective_score
  let below_conviction := conviction < s.cfg.min_conviction
  if below_effective ∨ below_conviction then
    (⟨0, conviction, effective_score⟩, .belowThreshold)
  else
    let direction : ℤ := if 0 < effective_score then 1 else -1
    (⟨direction, conviction, effective_score⟩, .normal)

/-- `evaluate_instrument`: the full per-instrument signal pipeline. -/
def evaluate_instrument (s : MacroFuturesSleeve) (inst : FutureInstrument)
    (hist : InstrumentHistory) (macros : MacroScalars) : InstrumentSignal :=
  match validate_history hist with
  | some reason => flat_signal inst reason
  | Option.none =>
    match hist.bars.getLast? with
    | Option.none => flat_signal inst .insufficientHistory
    | some last_bar =>
      match validate_features last_bar with
      | some reason => flat_signal inst reason
      | Option.none =>
        let trend_score := compute_trend_raw s hist.bars inst
        let carry_score := compute_carry_raw s inst last_bar
        let raw : RawSignal := ⟨trend_score, carry_score⟩
        let macro_adj := apply_macro_scalars s inst raw macros
        let effective_score := compute_effective_score s inst macro_adj
        let conviction := compute_conviction s effective_score
        let fs := build_final_signal s effective_score conviction
        { instrument := inst
          final_signal := fs.1
          raw
          macro_adj
          reason := fs.2 }

/-- `evaluate_signals`: one signal per history entry, in map-iteration
order (here: list order). -/
def evaluate_signals (s : MacroFuturesSleeve) (ctx : FuturesSleeveContext)
    (_risk_budget : FuturesRiskBudget) : List InstrumentSignal :=
  ctx.histories.map (fun hist => evaluate_instrument s hist.instrument hist ctx.macro_scalars)

/-- `evaluate_risk_intents`: `desired_risk_frac = direction × conviction`,
clamped to `[−1, 1]` (the non-finite branch is dead over `ℚ`). -/
def evaluate_risk_intents (s : MacroFuturesSleeve) (ctx : FuturesSleeveContext)
    (risk_budget : FuturesRiskBudget) : List InstrumentRiskIntent :=
  (evaluate_signals s ctx risk_budget).map (fun signal =>
    let desired_risk_frac :=
      clampQ (-1) 1 ((signal.final_signal.direction : ℚ) * signal.final_signal.conviction)
    { instrument := signal.instrument, desired_risk_frac, signal })

/-! ## `macro_futures_sleeve.rs`: position & contract planning -/

/-- The tail of the `filter_map` closure of `plan_positions` after the
rescale block: emit the planned position with realized signed notional `t`
and absolute notional `a`, debit both headroom pools by `a`, and consume a
concurrency slot when the instrument was previously flat
(`used_slots.saturating_add(1)` is plain `+ 1` on `ℕ`). -/
def planIntentResult (ctx : FuturesSleeveContext) (intent : InstrumentRiskIntent)
    (exposure_remaining margin_remaining : ℚ) (used_slots : ℕ) (t a : ℚ) :
    FuturesPlannedPosition × ℚ × ℚ × ℕ :=
  (⟨intent.instrument, intent.signal.final_signal.direction, t⟩,
    max (exposure_remaining - a) 0,
    max (margin_remaining - a) 0,
    if ctx.current_positions intent.instrument = 0 then used_slots + 1 else used_slots)

/-- One step of the `filter_map` closure inside `plan_positions`: given the
mutable loop state (remaining exposure/margin headroom and used concurrency
slots), either skip this intent (`none`, leaving the state unchanged, exactly
as a Rust `return None` does) or produce the planned position together with
the updated state. -/
def planOneIntent (ctx : FuturesSleeveContext) (intent : InstrumentRiskIntent)
    (exposure_remaining margin_remaining : ℚ) (used_slots : ℕ) :
    Option (FuturesPlannedPosition × ℚ × ℚ × ℕ) :=
  let dir := intent.signal.final_signal.direction
  let conv := intent.signal.final_signal.conviction
  let frac := intent.desired_risk_frac
  if dir = 0 ∨ conv ≤ 0 ∨ frac = 0 then Option.none
  else if exposure_remaining ≤ 0 ∨ margin_remaining ≤ 0 then Option.none
  else if ctx.current_positions intent.instrument = 0 ∧
      ctx.risk_envelope.max_concurrent_positions ≤ used_slots then
    Option.none
  else
    -- `!target_notional.is_finite()` is identically false over `ℚ`
    let target_notional := frac * ctx.risk_envelope.max_position_size_usd
    let abs_target := |target_notional|
    if abs_target < 1 then Option.none
    else
      let allowed_notional := min exposure_remaining margin_remaining
      if allowed_notional ≤ 0 then Option.none
      else if allowed_notional < abs_target then
        -- rescale to fit the headroom (`!scale.is_finite()` is dead over `ℚ`)
        let scale := allowed_notional / abs_target
        if scale ≤ 0 then Option.none
        else
          let t := target_notional * scale
          if |t| < 1 then Option.none
          else some (planIntentResult ctx intent exposure_remaining margin_remaining
            used_slots t |t|)
      else some (planIntentResult ctx intent exposure_remaining margin_remaining
        used_slots target_notional abs_target)

/-- The `filter_map` of `plan_positions` with its captured mutable state
(`exposure_remaining`, `margin_remaining`, `used_slots`) made explicit. -/
def planPositionsGo (ctx : FuturesSleeveContext) :
    List InstrumentRiskIntent → ℚ → ℚ → ℕ → List FuturesPlannedPosition
  | [], _, _, _ => []
  | intent :: rest, er, mr, us =>
    match planOneIntent ctx intent er mr us with
    | Option.none => planPositionsGo ctx rest er mr us
    | some (pos, er', mr', us') => pos :: planPositionsGo ctx rest er' mr' us'

/-- `plan_positions`. -/
def plan_positions (s : MacroFuturesSleeve) (ctx : FuturesSleeveContext)
    (risk_budget : FuturesRiskBudget) : List FuturesPlannedPosition :=
  let env := ctx.risk_envelope
  if env.portfolio_halt = .halt ∨ env.portfolio_halt = .kill
      ∨ env.sleeve_halt = .halt ∨ env.sleeve_halt = .kill
      ∨ env.max_position_size_usd ≤ 0 ∨ env.max_concurrent_positions = 0 then []
  else if ctx.engine_health = .degraded then []
  else
    let exposure_remaining := max env.exposure_remaining_usd 0
    let margin_remaining := max env.margin_remaining_usd 0
    let intents := evaluate_risk_intents s ctx risk_budget
    let current_open :=
      (instrumentOrder.filter (fun i => ctx.current_positions i ≠ 0)).length
    let used_slots := min current_open env.max_concurrent_positions
    planPositionsGo ctx intents exposure_remaining margin_remaining used_slots

/-- The `for p in planned` loop of `plan_contracts_with_risk_internal`,
with the mutable sleeve-wide `remaining_total` contract counter explicit.
An early empty tail models the `break` when the counter is exhausted. -/
def planContractsGo (risk_budget : FuturesRiskBudget) (base : ℚ) :
    List FuturesPlannedPosition → ℤ → List (FuturesPlannedContracts × FuturesPlannedRisk)
  | [], _ => []
  | p :: rest, remaining_total =>
    if remaining_total ≤ 0 then []
    else
      let inst_budget := risk_budget.budgetFor p.instrument
      let inst_max_contracts : ℤ := (inst_budget.max_contracts : ℤ)
      if inst_max_contracts ≤ 0 then planContractsGo risk_budget base rest remaining_total
      else
        let abs_frac := clampQ 0 1 (|p.target_notional_usd| / base)
        if abs_frac ≤ 0 then planContractsGo risk_budget base rest remaining_total
        else
          let sign_i32 : ℤ := p.target_direction
          if sign_i32 = 0 then planContractsGo risk_budget base rest remaining_total
          else
            let raw_contracts := roundAway ((inst_max_contracts : ℚ) * abs_frac)
            let stage1 := if raw_contracts ≤ 0 then 1 else raw_contracts
            let abs_contracts := min (min stage1 inst_max_contracts) (max remaining_total 0)
            if abs_contracts ≤ 0 then planContractsGo risk_budget base rest remaining_total
            else
              let final_target := sign_i32 * abs_contracts
              -- `inst_budget.max_risk_per_position_eur.is_finite()` is
              -- identically true over `ℚ`
              let risk_per_contract_eur :=
                if 0 < inst_max_contracts then
                  inst_budget.max_risk_per_position_eur / (inst_max_contracts : ℚ)
                else 0
              if risk_per_contract_eur ≤ 0 then
                planContractsGo risk_budget base rest remaining_total
              else
                let total_risk_eur := risk_per_contract_eur * (abs_contracts : ℚ)
                (⟨p.instrument, final_target⟩,
                  ⟨p.instrument, final_target, risk_per_contract_eur, total_risk_eur⟩)
                  :: planContractsGo risk_budget base rest (remaining_total - abs_contracts)

/-- `plan_contracts_with_risk_internal`. -/
def plan_contracts_with_risk_internal (s : MacroFuturesSleeve)
    (ctx : FuturesSleeveContext) (risk_budget : FuturesRiskBudget) :
    List (FuturesPlannedContracts × FuturesPlannedRisk) :=
  let planned := plan_positions s ctx risk_budget
  let base := ctx.risk_envelope.max_position_size_usd
  -- `!base.is_finite()` is identically false over `ℚ`
  if base ≤ 0 then []
  else planContractsGo risk_budget base planned (risk_budget.max_total_contracts : ℤ)

/-- `plan_contracts`. -/
def plan_contracts (s : MacroFuturesSleeve) (ctx : FuturesSleeveContext)
    (risk_budget : FuturesRiskBudget) : List FuturesPlannedContracts :=
  (plan_contracts_with_risk_internal s ctx risk_budget).map Prod.fst

/-- `plan_risk_report`. -/
def plan_risk_report (s : MacroFuturesSleeve) (ctx : FuturesSleeveContext)
    (risk_budget : FuturesRiskBudget) : List FuturesPlannedRisk :=
  (plan_contracts_with_risk_internal s ctx risk_budget).map Prod.snd

/-- One iteration of the accumulation loop in `aggregate_sleeve_risk`. -/
def aggregateStep (eur_per_usd : ℚ) (acc : FuturesSleeveAggregate)
    (r : FuturesPlannedRisk) : FuturesSleeveAggregate :=
  if r.target_contracts = 0 then acc
  else
    { total_contracts_signed := acc.total_contracts_signed + r.target_contracts
      total_contracts_abs := acc.total_contracts_abs + |r.target_contracts|
      total_risk_eur := acc.total_risk_eur + r.total_risk_eur
      total_notional_usd := acc.total_notional_usd + r.total_risk_eur / eur_per_usd
      instrument_count := acc.instrument_count + 1 }

/-- `aggregate_sleeve_risk`. -/
def aggregate_sleeve_risk (s : MacroFuturesSleeve) (ctx : FuturesSleeveContext)
    (risk_budget : FuturesRiskBudget) : FuturesSleeveAggregate :=
  (plan_risk_report s ctx risk_budget).foldl (aggregateStep ctx.eur_per_usd) ⟨0, 0, 0, 0, 0⟩

/-- `check_sleeve_risk_sanity`.  The source treats a non-finite or
non-positive cap as "no limit"; over `ℚ` the non-finite disjunct is
identically false, so only the non-positive test remains. -/
def check_sleeve_risk_sanity (s : MacroFuturesSleeve) (ctx : FuturesSleeveContext)
    (risk_budget : FuturesRiskBudget) (max_sleeve_risk_eur : ℚ) : SleeveRiskSanity :=
  if max_sleeve_risk_eur ≤ 0 then .ok
  else if max_sleeve_risk_eur < (aggregate_sleeve_risk s ctx risk_budget).total_risk_eur then
    .exceedsCap
  else .ok

/-- `plan_order_intents`: step 2a emits `target − current` for every planned
instrument, step 2b flattens every instrument with a position but no target
(`current_positions` iterates in the fixed `instrumentOrder`). -/
def plan_order_intents (s : MacroFuturesSleeve) (ctx : FuturesSleeveContext)
    (risk_budget : FuturesRiskBudget) : List FuturesOrderIntent :=
  let planned_contracts := plan_contracts s ctx risk_budget
  let targeted := planned_contracts.filterMap (fun p =>
    let current := ctx.current_positions p.instrument
    let delta := p.target_contracts - current
    if delta ≠ 0 then some (⟨p.instrument, delta⟩ : FuturesOrderIntent) else Option.none)
  let flattened := instrumentOrder.filterMap (fun inst =>
    let current := ctx.current_positions inst
    if current = 0 then Option.none
    else if planned_contracts.any (fun p => p.instrument = inst) then Option.none
    else some (⟨inst, -current⟩ : FuturesOrderIntent))
  targeted ++ flattened

/-! ## Kernel lemmas -/

/- Batteries marks the `Rat` arithmetic operations `@[irreducible]`, which
blocks elaboration-time evaluation of concrete inputs; restore the default
reducibility for this file so `decide` can evaluate the embedded code. -/
attribute [local semireducible] Rat.mul Rat.add Rat.sub Rat.inv

theorem if_gt_eq_max (a b : ℚ) : (if b > a then b else a) = max a b := by
  rcases le_or_lt b a with h | h
  · rw [if_neg (not_lt.mpr h), max_eq_left h]
  · rw [if_pos h, max_eq_right h.le]

theorem evalSleeve_some {E : KernelLoopEnv} {s : SleeveState}
    {p : SleeveState × SleeveRiskEnvelope} (h : evalSleeve E s = some p) :
    p.1 = { s with peak_equity_usd := max s.peak_equity_usd s.equity_usd } ∧
    p.2.exposure_remaining_usd = E.exposure_remaining_usd ∧
    p.2.margin_remaining_usd = E.margin_remaining_usd ∧
    ((p.2.portfolio_halt = .halt ∨ p.2.portfolio_halt = .kill ∨
        p.2.sleeve_halt = .halt ∨ p.2.sleeve_halt = .kill) →
      p.2.max_position_size_usd = 0) ∧
    (E.remaining_slots ≠ 0 →
      p.2.max_concurrent_positions ≤ s.open_positions + E.extra_per_sleeve) := by
  unfold evalSleeve at h
  cases hf : E.cfgs.find? (fun c => c.sleeve_id = s.sleeve_id) with
  | none => rw [hf] at h; cases h
  | some scfg =>
    rw [hf] at h
    injection h with h
    subst h
    refine ⟨by simp [if_gt_eq_max], rfl, rfl, ?_, ?_⟩
    · intro hh
      simp only at hh ⊢
      exact if_pos hh
    · intro hr
      simp only
      rw [if_neg hr]
      exact min_le_right _ _

theorem evalSleeves_mem {E : KernelLoopEnv} :
    ∀ {ss : List SleeveState} {l : List (SleeveState × SleeveRiskEnvelope)},
      evalSleeves E ss = some l → ∀ {p}, p ∈ l → ∃ s ∈ ss, evalSleeve E s = some p := by
  intro ss
  induction ss with
  | nil =>
    intro l hl p hp
    simp only [evalSleeves] at hl
    injection hl with hl
    subst hl
    cases hp
  | cons s rest ih =>
    intro l hl p hp
    unfold evalSleeves at hl
    cases h1 : evalSleeve E s with
    | none => rw [h1] at hl; cases hl
    | some q =>
      cases h2 : evalSleeves E rest with
      | none => rw [h1, h2] at hl; cases hl
      | some qs =>
        rw [h1, h2] at hl
        injection hl with hl
        subst hl
        rcases List.mem_cons.mp hp with rfl | hp'
        · exact ⟨s, List.mem_cons_self _ _, h1⟩
        · obtain ⟨s', hs', he⟩ := ih h2 hp'
          exact ⟨s', List.mem_cons_of_mem _ hs', he⟩

theorem evalSleeves_forall₂ {E : KernelLoopEnv} :
    ∀ {ss : List SleeveState} {l : List (SleeveState × SleeveRiskEnvelope)},
      evalSleeves E ss = some l →
      List.Forall₂ (fun s (p : SleeveState × SleeveRiskEnvelope) =>
        p.1 = { s with peak_equity_usd := max s.peak_equity_usd s.equity_usd }) ss l := by
  intro ss
  induction ss with
  | nil =>
    intro l hl
    simp only [evalSleeves] at hl
    injection hl with hl
    subst hl
    exact List.Forall₂.nil
  | cons s rest ih =>
    intro l hl
    unfold evalSleeves at hl
    cases h1 : evalSleeve E s with
    | none => rw [h1] at hl; cases hl
    | some q =>
      cases h2 : evalSleeves E rest with
      | none => rw [h1, h2] at hl; cases hl
      | some qs =>
        rw [h1, h2] at hl
        injection hl with hl
        subst hl
        exact List.Forall₂.cons (evalSleeve_some h1).1 (ih h2)

theorem evalSleeves_concurrency_sum {E : KernelLoopEnv} (hr : E.remaining_slots ≠ 0) :
    ∀ {ss : List SleeveState} {l : List (SleeveState × SleeveRiskEnvelope)},
      evalSleeves E ss = some l →
      ((l.map (fun p => p.2.max_concurrent_positions)).sum ≤
        (ss.map (·.open_positions)).sum + ss.length * E.extra_per_sleeve) := by
  intro ss
  induction ss with
  | nil =>
    intro l hl
    simp only [evalSleeves] at hl
    injection hl with hl
    subst hl
    simp
  | cons s rest ih =>
    intro l hl
    unfold evalSleeves at hl
    cases h1 : evalSleeve E s with
    | none => rw [h1] at hl; cases hl
    | some q =>
      cases h2 : evalSleeves E rest with
      | none => rw [h1, h2] at hl; cases hl
      | some qs =>
        rw [h1, h2] at hl
        injection hl with hl
        subst hl
        have hhead := (evalSleeve_some h1).2.2.2.2 hr
        have htail := ih h2
        simp only [List.map_cons, List.sum_cons, List.length_cons]
        calc q.2.max_concurrent_positions + (qs.map (fun p => p.2.max_concurrent_positions)).sum
            ≤ (s.open_positions + E.extra_per_sleeve)
              + ((rest.map (·.open_positions)).sum + rest.length * E.extra_per_sleeve) :=
              Nat.add_le_add hhead htail
          _ = (s.open_positions + (rest.map (·.open_positions)).sum)
              + (rest.length + 1) * E.extra_per_sleeve := by ring

/-! ## Claim C2: halt/kill envelopes have zero position size -/

/-- C2: for every call to `GlobalRiskKernel::evaluate` and every emitted
envelope, if that envelope's `portfolio_halt` or `sleeve_halt` is `Halt` or
`Kill`, then its `max_position_size_usd` equals 0. -/
theorem evaluate_halt_zeroes_max_position_size
    (k : GlobalRiskKernel) (portfolio : PortfolioState) (sleeves : List SleeveState)
    (margin : MarginState) (vol : VolatilityRegime) (res : EvaluateResult)
    (hres : evaluate k portfolio sleeves margin vol = some res)
    (env : SleeveRiskEnvelope) (henv : env ∈ res.envelopes)
    (hhalt : env.portfolio_halt = .halt ∨ env.portfolio_halt = .kill ∨
      env.sleeve_halt = .halt ∨ env.sleeve_halt = .kill) :
    env.max_position_size_usd = 0 := by
  unfold evaluate at hres
  cases he : evalSleeves (kernelLoopEnv k portfolio sleeves margin vol) sleeves with
  | none => rw [he] at hres; cases hres
  | some pairs =>
    rw [he] at hres
    injection hres with hres
    subst hres
    simp only [List.mem_map] at henv
    obtain ⟨p, hp, rfl⟩ := henv
    exact (evalSleeve_some (evalSleeves_mem he hp).choose_spec.2).2.2.2.1 hhalt

/-! ## Claim C8: headroom fields are never negative -/

/-- C8: for every input to `GlobalRiskKernel::evaluate`, the
`exposure_remaining_usd` and `margin_remaining_usd` fields of every emitted
envelope are ≥ 0. -/
theorem evaluate_headroom_nonneg
    (k : GlobalRiskKernel) (portfolio : PortfolioState) (sleeves : List SleeveState)
    (margin : MarginState) (vol : VolatilityRegime) (res : EvaluateResult)
    (hres : evaluate k portfolio sleeves margin vol = some res)
    (env : SleeveRiskEnvelope) (henv : env ∈ res.envelopes) :
    0 ≤ env.exposure_remaining_usd ∧ 0 ≤ env.margin_remaining_usd := by
  unfold evaluate at hres
  cases he : evalSleeves (kernelLoopEnv k portfolio sleeves margin vol) sleeves with
  | none => rw [he] at hres; cases hres
  | some pairs =>
    rw [he] at hres
    injection hres with hres
    subst hres
    simp only [List.mem_map] at henv
    obtain ⟨p, hp, rfl⟩ := henv
    have shape := evalSleeve_some (evalSleeves_mem he hp).choose_spec.2
    rw [shape.2.1, shape.2.2.1]
    constructor <;> · simp [kernelLoopEnv]

/-! ## Claim C3: concurrency conservation -/

/-- C3: whenever the summed `open_positions` over all sleeve states is
strictly below `max_global_positions` (i.e. `remaining_slots > 0`), the sum
over all emitted envelopes of `max_concurrent_positions` is at most
`max_global_positions`. -/
theorem evaluate_concurrency_conservation
    (k : GlobalRiskKernel) (portfolio : PortfolioState) (sleeves : List SleeveState)
    (margin : MarginState) (vol : VolatilityRegime) (res : EvaluateResult)
    (hres : evaluate k portfolio sleeves margin vol = some res)
    (hsum : (sleeves.map (·.open_positions)).sum < k.config.portfolio.max_global_positions) :
    (res.envelopes.map (·.max_concurrent_positions)).sum ≤
      k.config.portfolio.max_global_positions := by
  unfold evaluate at hres
  cases he : evalSleeves (kernelLoopEnv k portfolio sleeves margin vol) sleeves with
  | none => rw [he] at hres; cases hres
  | some pairs =>
    rw [he] at hres
    injection hres with hres
    subst hres
    have hrem : (kernelLoopEnv k portfolio sleeves margin vol).remaining_slots =
        k.config.portfolio.max_global_positions - (sleeves.map (·.open_positions)).sum := by
      simp only [kernelLoopEnv]
      rw [if_neg (not_le.mpr hsum)]
    have hrem0 : (kernelLoopEnv k portfolio sleeves margin vol).remaining_slots ≠ 0 := by
      rw [hrem]
      omega
    have hbound := evalSleeves_concurrency_sum hrem0 he
    have hmapmap : ((pairs.map Prod.snd).map (·.max_concurrent_positions)).sum
        = (pairs.map (fun p => p.2.max_concurrent_positions)).sum := by
      rw [List.map_map]
      rfl
    rcases Nat.eq_zero_or_pos sleeves.length with hlen | hlen
    · obtain rfl : sleeves = [] := List.length_eq_zero.mp hlen
      simp only [evalSleeves] at he
      injection he with he
      subst he
      simp
    · have hextra : (kernelLoopEnv k portfolio sleeves margin vol).extra_per_sleeve =
          (k.config.portfolio.max_global_positions - (sleeves.map (·.open_positions)).sum)
            / sleeves.length := by
        simp only [kernelLoopEnv]
        rw [if_neg (not_le.mpr hsum), if_pos ⟨by omega, hlen⟩]
      have hdiv : sleeves.length *
          ((k.config.portfolio.max_global_positions - (sleeves.map (·.open_positions)).sum)
            / sleeves.length) ≤
          k.config.portfolio.max_global_positions - (sleeves.map (·.open_positions)).sum := by
        rw [Nat.mul_comm]
        exact Nat.div_mul_le_self _ _
      rw [hextra] at hbound
      rw [hmapmap]
      omega

/-! ## Claim C9: `evaluate` mutates only the peak-equity state -/

/-- C9: a call to `evaluate` mutates only the peak-equity state: the
kernel's internal portfolio peak equity and each sleeve state's
`peak_equity_usd` are set to the maximum of their old value and the current
equity (hence non-decreasing), and every other field of every sleeve state
is unchanged (expressed by the structure-update equality). -/
theorem evaluate_frame_peaks_only
    (k : GlobalRiskKernel) (portfolio : PortfolioState) (sleeves : List SleeveState)
    (margin : MarginState) (vol : VolatilityRegime) (res : EvaluateResult)
    (hres : evaluate k portfolio sleeves margin vol = some res) :
    res.kernel_peak = max k.internal_portfolio_peak_equity (equity_now portfolio) ∧
    k.internal_portfolio_peak_equity ≤ res.kernel_peak ∧
    List.Forall₂ (fun s s' =>
      s' = { s with peak_equity_usd := max s.peak_equity_usd s.equity_usd } ∧
      s.peak_equity_usd ≤ s'.peak_equity_usd) sleeves res.sleeves := by
  unfold evaluate at hres
  cases he : evalSleeves (kernelLoopEnv k portfolio sleeves margin vol) sleeves with
  | none => rw [he] at hres; cases hres
  | some pairs =>
    rw [he] at hres
    injection hres with hres
    subst hres
    refine ⟨?_, ?_, ?_⟩
    · show kernelPeakAfter k portfolio = _
      unfold kernelPeakAfter
      exact if_gt_eq_max _ _
    · show _ ≤ kernelPeakAfter k portfolio
      unfold kernelPeakAfter
      rw [if_gt_eq_max]
      exact le_max_left _ _
    · show List.Forall₂ _ sleeves (pairs.map Prod.fst)
      rw [List.forall₂_map_right_iff]
      refine (evalSleeves_forall₂ he).imp ?_
      intro s p hp
      exact ⟨hp, by rw [hp]; exact le_max_left _ _⟩

/-! ## Concrete kernel inputs for the witnesses -/

def wkPortfolioCfg : PortfolioRiskConfig :=
  { initial_equity_usd := 10000, halt_dd_frac := -8/100, kill_dd_frac := -12/100
    max_leverage := 3/2, rebalance_drift_frac := 15/100, max_global_positions := 15 }

def wkSleeveCfg : SleeveRiskConfig :=
  { sleeve_id := .microFuturesMacroTrend, capital_alloc_usd := 2000
    max_single_pos_risk_frac := 1/100, halt_dd_frac := -1/10, kill_dd_frac := -15/100
    max_concurrent_positions := 3 }

def wkKernel : GlobalRiskKernel := GlobalRiskKernel.new ⟨wkPortfolioCfg, [wkSleeveCfg]⟩

/-- A portfolio in a 20% drawdown against the initial 10000 peak: equity 8000
triggers the `Kill` halt state. -/
def wkPortfolio : PortfolioState :=
  { cash_usd := 8000, open_pnl_usd := 0, accrued_interest_usd := 0
    peak_equity_usd := 10000, total_notional_exposure := 0, current_leverage := 0 }

def wkSleeveState : SleeveState :=
  { sleeve_id := .microFuturesMacroTrend, equity_usd := 2000, realized_pnl_usd := 0
    unrealized_pnl_usd := 0, peak_equity_usd := 2000, open_positions := 0 }

def wkMargin : MarginState :=
  { internal_margin_req_usd := 0, broker_margin_req_usd := 0, equity_usd := 8000 }

def wkVol : VolatilityRegime :=
  { rv10_annualized := 10, vix_level := 20, vix_term_slope := 1, regime_scalar := 1 }

def wkEnv : SleeveRiskEnvelope :=
  { sleeve_id := .microFuturesMacroTrend, sleeve_halt := .none, portfolio_halt := .kill
    max_position_size_usd := 0, max_concurrent_positions := 3
    exposure_remaining_usd := 12000, margin_remaining_usd := 8000
    volatility_regime_scalar := 1, leverage_scalar := 110/100
    portfolio_risk_state := .stress }

def wkRes : EvaluateResult := ⟨10000, [wkSleeveState], [wkEnv]⟩

/-- Witness for C2: the concrete drawdown scenario above produces a `Kill`
portfolio halt, and the theorem forces its envelope's position size to 0. -/
theorem evaluate_halt_zeroes_max_position_size_witness :
    wkEnv.max_position_size_usd = 0 :=
  evaluate_halt_zeroes_max_position_size wkKernel wkPortfolio [wkSleeveState] wkMargin wkVol
    wkRes (by decide) wkEnv (by decide) (by decide)

/-- Witness for C8 at the same concrete scenario. -/
theorem evaluate_headroom_nonneg_witness :
    0 ≤ wkEnv.exposure_remaining_usd ∧ 0 ≤ wkEnv.margin_remaining_usd :=
  evaluate_headroom_nonneg wkKernel wkPortfolio [wkSleeveState] wkMargin wkVol
    wkRes (by decide) wkEnv (by decide)

/-- Witness for C3 at the same concrete scenario (0 open positions < 15
global slots; the single envelope's ceiling 3 is within 15). -/
theorem evaluate_concurrency_conservation_witness :
    (wkRes.envelopes.map (·.max_concurrent_positions)).sum ≤
      wkKernel.config.portfolio.max_global_positions :=
  evaluate_concurrency_conservation wkKernel wkPortfolio [wkSleeveState] wkMargin wkVol
    wkRes (by decide) (by decide)

/-- Witness for C9 at the same concrete scenario. -/
theorem evaluate_frame_peaks_only_witness :
    wkRes.kernel_peak = max wkKernel.internal_portfolio_peak_equity (equity_now wkPortfolio) ∧
    wkKernel.internal_portfolio_peak_equity ≤ wkRes.kernel_peak ∧
    List.Forall₂ (fun s s' =>
      s' = { s with peak_equity_usd := max s.peak_equity_usd s.equity_usd } ∧
      s.peak_equity_usd ≤ s'.peak_equity_usd) [wkSleeveState] wkRes.sleeves :=
  evaluate_frame_peaks_only wkKernel wkPortfolio [wkSleeveState] wkMargin wkVol
    wkRes (by decide)

/-! ## Claims C4 and C10: the cashflow reset rule -/

/-- C4 counterexample: with `equity_before = −1 ≤ 0` and
`equity_after = −1`, the net cash movement is 0, so its absolute fraction of
`equity_before` is 0 < 20% and the claim as stated demands the stored peak
(10000) stay unchanged — but the source resets it to `equity_after`
unconditionally on the `equity_before ≤ 0` branch. -/
theorem apply_cashflow_reset_claim_counterexample :
    |(-1 : ℚ) - -1| / (-1) < 20/100 ∧
    (apply_cashflow_reset wkKernel (-1) (-1)).internal_portfolio_peak_equity ≠
      wkKernel.internal_portfolio_peak_equity := by
  constructor
  · norm_num
  · decide

/-- C4 (amended): for `equity_before > 0`, `apply_cashflow_reset` resets the
kernel's portfolio peak equity to `equity_after` iff the absolute net cash
movement as a fraction of `equity_before` is at least 20%, and otherwise
leaves the kernel unchanged; for `equity_before ≤ 0` the peak is set to
`equity_after` unconditionally. -/
theorem apply_cashflow_reset_threshold_amended
    (k : GlobalRiskKernel) (equity_before equity_after : ℚ) :
    (0 < equity_before →
      apply_cashflow_reset k equity_before equity_after =
        (if 20/100 ≤ |equity_after - equity_before| / equity_before then
          { k with internal_portfolio_peak_equity := equity_after }
        else k)) ∧
    (equity_before ≤ 0 →
      apply_cashflow_reset k equity_before equity_after =
        { k with internal_portfolio_peak_equity := equity_after }) := by
  constructor
  · intro h
    unfold apply_cashflow_reset
    rw [if_neg (not_le.mpr h)]
  · intro h
    unfold apply_cashflow_reset
    rw [if_pos h]

/-- Witness for C4 (amended) at concrete inputs: a 30% inflow on equity 100
resets the peak to 130, a 10% inflow leaves the kernel unchanged. -/
theorem apply_cashflow_reset_threshold_amended_witness :
    apply_cashflow_reset wkKernel 100 130 =
      { wkKernel with internal_portfolio_peak_equity := 130 } ∧
    apply_cashflow_reset wkKernel 100 110 = wkKernel := by
  have h1 := (apply_cashflow_reset_threshold_amended wkKernel 100 130).1 (by norm_num)
  have h2 := (apply_cashflow_reset_threshold_amended wkKernel 100 110).1 (by norm_num)
  rw [if_pos (by norm_num)] at h1
  rw [if_neg (by norm_num)] at h2
  exact ⟨h1, h2⟩

/-- C10: for `equity_before ≤ 0` the kernel's portfolio peak equity is
unconditionally set to `equity_after` (even for a zero-size movement), and
the 20% threshold rule only governs calls with `equity_before > 0`. -/
theorem apply_cashflow_reset_nonpositive_before
    (k : GlobalRiskKernel) (equity_before equity_after : ℚ) :
    (equity_before ≤ 0 →
      (apply_cashflow_reset k equity_before equity_after).internal_portfolio_peak_equity =
        equity_after) ∧
    (0 < equity_before →
      (apply_cashflow_reset k equity_before equity_after).internal_portfolio_peak_equity =
        (if 20/100 ≤ |equity_after - equity_before| / equity_before then equity_after
         else k.internal_portfolio_peak_equity)) := by
  constructor
  · intro h
    unfold apply_cashflow_reset
    rw [if_pos h]
  · intro h
    unfold apply_cashflow_reset
    rw [if_neg (not_le.mpr h)]
    rcases le_or_lt (20/100 : ℚ) (|equity_after - equity_before| / equity_before) with hc | hc
    · rw [if_pos hc, if_pos hc]
    · rw [if_neg (not_le.mpr hc), if_neg (not_le.mpr hc)]

/-- Witness for C10: `equity_before = −2`, `equity_after = −2` — a zero-size
movement still resets the stored peak (10000) to −2. -/
theorem apply_cashflow_reset_nonpositive_before_witness :
    (apply_cashflow_reset wkKernel (-2) (-2)).internal_portfolio_peak_equity = -2 :=
  (apply_cashflow_reset_nonpositive_before wkKernel (-2) (-2)).1 (by norm_num)

/-! ## Claim C7: the leverage scalar formula -/

/-- C7 counterexample: with `max_leverage = 1/20 < 0.1` and
`current_leverage = 1/20`, the claimed formula has `x = 1` and yields 0,
but the source divides by `max(max_leverage, 0.1) = 1/10`, giving `x = 1/2`
and a scalar of `0.99`. -/
theorem derive_leverage_scalar_claim_counterexample :
    derive_leverage_scalar
        ⟨0, 0, 0, 0, 0, 1/20⟩
        ⟨10000, -8/100, -12/100, 1/20, 15/100, 15⟩ = 99/100 ∧
    leverage_scalar_claimed
        ⟨0, 0, 0, 0, 0, 1/20⟩
        ⟨10000, -8/100, -12/100, 1/20, 15/100, 15⟩ = 0 := by
  constructor <;> decide

/-- C7 (amended): the kernel's leverage scalar equals the claimed piecewise
function of relative leverage, provided `x` is computed as
`max(current_leverage, 0) / max(max_leverage, 0.1)` — i.e. with the
denominator floored at 0.1 as the source does. -/
theorem derive_leverage_scalar_piecewise_amended
    (portfolio : PortfolioState) (pcfg : PortfolioRiskConfig) :
    derive_leverage_scalar portfolio pcfg = leverage_scalar_amended portfolio pcfg := by
  simp only [derive_leverage_scalar, leverage_scalar_amended]
  split_ifs
  all_goals rfl

/-! ## Sleeve lemmas -/

theorem plan_positions_halt_empty (s : MacroFuturesSleeve) (ctx : FuturesSleeveContext)
    (risk_budget : FuturesRiskBudget)
    (h : ctx.engine_health = .degraded ∨
      ctx.risk_envelope.portfolio_halt = .halt ∨ ctx.risk_envelope.portfolio_halt = .kill ∨
      ctx.risk_envelope.sleeve_halt = .halt ∨ ctx.risk_envelope.sleeve_halt = .kill) :
    plan_positions s ctx risk_budget = [] := by
  unfold plan_positions
  by_cases h1 : ctx.risk_envelope.portfolio_halt = .halt ∨
      ctx.risk_envelope.portfolio_halt = .kill ∨
      ctx.risk_envelope.sleeve_halt = .halt ∨ ctx.risk_envelope.sleeve_halt = .kill ∨
      ctx.risk_envelope.max_position_size_usd ≤ 0 ∨
      ctx.risk_envelope.max_concurrent_positions = 0
  · rw [if_pos h1]
  · rw [if_neg h1]
    have hd : ctx.engine_health = .degraded := by
      rcases h with hd | hh | hh | hh | hh
      · exact hd
      all_goals exact absurd (by tauto) h1
    rw [if_pos hd]

theorem plan_contracts_halt_empty (s : MacroFuturesSleeve) (ctx : FuturesSleeveContext)
    (risk_budget : FuturesRiskBudget)
    (h : ctx.engine_health = .degraded ∨
      ctx.risk_envelope.portfolio_halt = .halt ∨ ctx.risk_envelope.portfolio_halt = .kill ∨
      ctx.risk_envelope.sleeve_halt = .halt ∨ ctx.risk_envelope.sleeve_halt = .kill) :
    plan_contracts s ctx risk_budget = [] := by
  unfold plan_contracts plan_contracts_with_risk_internal
  rw [plan_positions_halt_empty s ctx risk_budget h]
  by_cases hb : ctx.risk_envelope.max_position_size_usd ≤ 0
  · rw [if_pos hb]
    rfl
  · rw [if_neg hb]
    rfl

theorem flatten_filter (cur : FutureInstrument → ℤ) (inst : FutureInstrument) :
    ((instrumentOrder.filterMap (fun i =>
        if cur i = 0 then Option.none
        else some (⟨i, -(cur i)⟩ : FuturesOrderIntent))).filter
      (fun oi => oi.instrument = inst)) =
    (if cur inst = 0 then [] else [⟨inst, -(cur inst)⟩]) := by
  cases inst <;>
    ( simp only [instrumentOrder]
      by_cases h1 : cur FutureInstrument.mes = 0 <;>
      by_cases h2 : cur FutureInstrument.mnq = 0 <;>
      by_cases h3 : cur FutureInstrument.sixE = 0 <;>
      simp [h1, h2, h3, List.filterMap_cons, List.filter] )

/-! ## Claim C1: flatten completeness under halt / degraded health -/

/-- C1: whenever `engine_health` is `Degraded` or the envelope's portfolio
or sleeve halt state is `Halt` or `Kill`, `plan_order_intents` emits, for
every instrument with a nonzero current position, exactly one order intent,
whose `delta_contracts` is the negative of that position, and emits no
nonzero intent for any instrument whose current position is zero. -/
theorem plan_order_intents_flatten_on_halt_or_degraded
    (s : MacroFuturesSleeve) (ctx : FuturesSleeveContext) (risk_budget : FuturesRiskBudget)
    (h : ctx.engine_health = .degraded ∨
      ctx.risk_envelope.portfolio_halt = .halt ∨ ctx.risk_envelope.portfolio_halt = .kill ∨
      ctx.risk_envelope.sleeve_halt = .halt ∨ ctx.risk_envelope.sleeve_halt = .kill)
    (inst : FutureInstrument) :
    (ctx.current_positions inst ≠ 0 →
      (plan_order_intents s ctx risk_budget).filter (fun oi => oi.instrument = inst) =
        [⟨inst, -(ctx.current_positions inst)⟩]) ∧
    (ctx.current_positions inst = 0 →
      ∀ oi ∈ plan_order_intents s ctx risk_budget, oi.instrument = inst →
        oi.delta_contracts = 0) := by
  have hplanned := plan_contracts_halt_empty s ctx risk_budget h
  have hout : plan_order_intents s ctx risk_budget =
      instrumentOrder.filterMap (fun i =>
        if ctx.current_positions i = 0 then Option.none
        else some (⟨i, -(ctx.current_positions i)⟩ : FuturesOrderIntent)) := by
    unfold plan_order_intents
    rw [hplanned]
    simp
  rw [hout]
  constructor
  · intro hnz
    rw [flatten_filter, if_neg hnz]
  · intro hz oi hoi hinst
    exfalso
    have hmem : oi ∈ (instrumentOrder.filterMap (fun i =>
        if ctx.current_positions i = 0 then Option.none
        else some (⟨i, -(ctx.current_positions i)⟩ : FuturesOrderIntent))).filter
          (fun oi => oi.instrument = inst) :=
      List.mem_filter.mpr ⟨hoi, by simp [hinst]⟩
    rw [flatten_filter, if_pos hz] at hmem
    cases hmem

theorem build_final_signal_dir (s : MacroFuturesSleeve) (e c : ℚ) :
    (build_final_signal s e c).1.direction = 0 ∨ (build_final_signal s e c).1.direction = 1 ∨
      (build_final_signal s e c).1.direction = -1 := by
  unfold build_final_signal
  by_cases h1 : |e| < s.cfg.min_effective_score ∨ c < s.cfg.min_conviction
  · rw [if_pos h1]
    exact Or.inl rfl
  · rw [if_neg h1]
    by_cases h2 : 0 < e
    · rw [if_pos h2]
      exact Or.inr (Or.inl rfl)
    · rw [if_neg h2]
      exact Or.inr (Or.inr rfl)

theorem evaluate_instrument_dir (s : MacroFuturesSleeve) (inst : FutureInstrument)
    (hist : InstrumentHistory) (macros : MacroScalars) :
    (evaluate_instrument s inst hist macros).final_signal.direction = 0 ∨
    (evaluate_instrument s inst hist macros).final_signal.direction = 1 ∨
    (evaluate_instrument s inst hist macros).final_signal.direction = -1 := by
  unfold evaluate_instrument
  cases h1 : validate_history hist with
  | some r => simp [flat_signal]
  | none =>
    cases h2 : hist.bars.getLast? with
    | none => simp [flat_signal]
    | some last_bar =>
      dsimp only
      cases h3 : validate_features last_bar with
      | some r => simp [flat_signal]
      | none => exact build_final_signal_dir s _ _

theorem evaluate_risk_intents_dir (s : MacroFuturesSleeve) (ctx : FuturesSleeveContext)
    (risk_budget : FuturesRiskBudget) :
    ∀ i ∈ evaluate_risk_intents s ctx risk_budget,
      i.signal.final_signal.direction = 0 ∨ i.signal.final_signal.direction = 1 ∨
        i.signal.final_signal.direction = -1 := by
  intro i hi
  unfold evaluate_risk_intents at hi
  obtain ⟨sig, hsig, rfl⟩ := List.mem_map.mp hi
  unfold evaluate_signals at hsig
  obtain ⟨hist, hhist, rfl⟩ := List.mem_map.mp hsig
  exact evaluate_instrument_dir s hist.instrument hist ctx.macro_scalars

theorem planOneIntent_dir {ctx : FuturesSleeveContext} {intent : InstrumentRiskIntent}
    {er mr : ℚ} {us : ℕ} {out : FuturesPlannedPosition × ℚ × ℚ × ℕ}
    (h : planOneIntent ctx intent er mr us = some out) :
    out.1.target_direction = intent.signal.final_signal.direction ∧
    intent.signal.final_signal.direction ≠ 0 := by
  simp only [planOneIntent] at h
  split_ifs at h
  all_goals
    first
      | exact Option.noConfusion h
      | (injection h with h
         subst h
         exact ⟨rfl, fun h0 => by tauto⟩)

theorem planPositionsGo_mem (ctx : FuturesSleeveContext) :
    ∀ (intents : List InstrumentRiskIntent) (er mr : ℚ) (us : ℕ)
      (p : FuturesPlannedPosition), p ∈ planPositionsGo ctx intents er mr us →
      ∃ i ∈ intents, p.target_direction = i.signal.final_signal.direction ∧
        i.signal.final_signal.direction ≠ 0 := by
  intro intents
  induction intents with
  | nil =>
    intro er mr us p hp
    simp [planPositionsGo] at hp
  | cons intent rest ih =>
    intro er mr us p hp
    unfold planPositionsGo at hp
    cases h1 : planOneIntent ctx intent er mr us with
    | none =>
      rw [h1] at hp
      obtain ⟨i, hi, hd⟩ := ih er mr us p hp
      exact ⟨i, List.mem_cons_of_mem _ hi, hd⟩
    | some out =>
      obtain ⟨pos, er', mr', us'⟩ := out
      rw [h1] at hp
      rcases List.mem_cons.mp hp with rfl | hp'
      · exact ⟨intent, List.mem_cons_self _ _, (planOneIntent_dir h1).1,
          (planOneIntent_dir h1).2⟩
      · obtain ⟨i, hi, hd⟩ := ih er' mr' us' p hp'
        exact ⟨i, List.mem_cons_of_mem _ hi, hd⟩

theorem plan_positions_dir (s : MacroFuturesSleeve) (ctx : FuturesSleeveContext)
    (risk_budget : FuturesRiskBudget) :
    ∀ p ∈ plan_positions s ctx risk_budget,
      p.target_direction = 1 ∨ p.target_direction = -1 := by
  intro p hp
  unfold plan_positions at hp
  by_cases h1 : ctx.risk_envelope.portfolio_halt = .halt ∨
      ctx.risk_envelope.portfolio_halt = .kill ∨
      ctx.risk_envelope.sleeve_halt = .halt ∨ ctx.risk_envelope.sleeve_halt = .kill ∨
      ctx.risk_envelope.max_position_size_usd ≤ 0 ∨
      ctx.risk_envelope.max_concurrent_positions = 0
  · rw [if_pos h1] at hp
    cases hp
  · rw [if_neg h1] at hp
    by_cases h2 : ctx.engine_health = .degraded
    · rw [if_pos h2] at hp
      cases hp
    · rw [if_neg h2] at hp
      obtain ⟨i, hi, hpd, hnz⟩ := planPositionsGo_mem ctx _ _ _ _ p hp
      rcases evaluate_risk_intents_dir s ctx risk_budget i hi with h0 | h0 | h0
      · exact absurd h0 hnz
      · exact Or.inl (hpd.trans h0)
      · exact Or.inr (hpd.trans h0)

theorem planContractsGo_mem (risk_budget : FuturesRiskBudget) (base : ℚ) :
    ∀ (planned : List FuturesPlannedPosition) (remaining : ℤ)
      (pr : FuturesPlannedContracts × FuturesPlannedRisk),
      pr ∈ planContractsGo risk_budget base planned remaining →
      ∃ p ∈ planned, ∃ a : ℤ,
        pr.1 = ⟨p.instrument, p.target_direction * a⟩ ∧
        pr.2 = ⟨p.instrument, p.target_direction * a,
          (risk_budget.budgetFor p.instrument).max_risk_per_position_eur /
            (((risk_budget.budgetFor p.instrument).max_contracts : ℤ) : ℚ),
          ((risk_budget.budgetFor p.instrument).max_risk_per_position_eur /
            (((risk_budget.budgetFor p.instrument).max_contracts : ℤ) : ℚ)) * (a : ℚ)⟩ ∧
        0 < a := by
  intro planned
  induction planned with
  | nil =>
    intro remaining pr hpr
    simp [planContractsGo] at hpr
  | cons p rest ih =>
    intro remaining pr hpr
    simp only [planContractsGo] at hpr
    by_cases c0 : remaining ≤ 0
    · rw [if_pos c0] at hpr
      exact absurd hpr (List.not_mem_nil _)
    rw [if_neg c0] at hpr
    by_cases c1 : ((risk_budget.budgetFor p.instrument).max_contracts : ℤ) ≤ 0
    · rw [if_pos c1] at hpr
      obtain ⟨q, hq, h'⟩ := ih _ pr hpr
      exact ⟨q, List.mem_cons_of_mem _ hq, h'⟩
    rw [if_neg c1] at hpr
    by_cases c2 : clampQ 0 1 (|p.target_notional_usd| / base) ≤ 0
    · rw [if_pos c2] at hpr
      obtain ⟨q, hq, h'⟩ := ih _ pr hpr
      exact ⟨q, List.mem_cons_of_mem _ hq, h'⟩
    rw [if_neg c2] at hpr
    by_cases c3 : p.target_direction = 0
    · rw [if_pos c3] at hpr
      obtain ⟨q, hq, h'⟩ := ih _ pr hpr
      exact ⟨q, List.mem_cons_of_mem _ hq, h'⟩
    rw [if_neg c3] at hpr
    rw [if_pos (lt_of_not_le c1)] at hpr
    by_cases c4 : min (min
        (if roundAway ((((risk_budget.budgetFor p.instrument).max_contracts : ℤ) : ℚ) *
            clampQ 0 1 (|p.target_notional_usd| / base)) ≤ 0 then 1
         else roundAway ((((risk_budget.budgetFor p.instrument).max_contracts : ℤ) : ℚ) *
            clampQ 0 1 (|p.target_notional_usd| / base)))
        ((risk_budget.budgetFor p.instrument).max_contracts : ℤ)) (max remaining 0) ≤ 0
    · rw [if_pos c4] at hpr
      obtain ⟨q, hq, h'⟩ := ih _ pr hpr
      exact ⟨q, List.mem_cons_of_mem _ hq, h'⟩
    rw [if_neg c4] at hpr
    by_cases c5 : (risk_budget.budgetFor p.instrument).max_risk_per_position_eur /
        (((risk_budget.budgetFor p.instrument).max_contracts : ℤ) : ℚ) ≤ 0
    · rw [if_pos c5] at hpr
      obtain ⟨q, hq, h'⟩ := ih _ pr hpr
      exact ⟨q, List.mem_cons_of_mem _ hq, h'⟩
    rw [if_neg c5] at hpr
    rcases List.mem_cons.mp hpr with rfl | hpr'
    · exact ⟨p, List.mem_cons_self _ _, _, rfl, rfl, lt_of_not_le c4⟩
    · obtain ⟨q, hq, h'⟩ := ih _ pr hpr'
      exact ⟨q, List.mem_cons_of_mem _ hq, h'⟩

/-! ## Claim C5: budget-proportional risk report -/

/-- C5: every risk-report entry with a nonzero planned contract target has
`risk_per_contract_eur` equal to that instrument's
`max_risk_per_position_eur / max_contracts` — a formula mentioning only the
instrument's risk budget, hence independent of price, ATR, and the
EUR/USD conversion rate — and `total_risk_eur` equal to
`risk_per_contract_eur` times the absolute contract count. -/
theorem plan_risk_report_budget_proportional
    (s : MacroFuturesSleeve) (ctx : FuturesSleeveContext) (risk_budget : FuturesRiskBudget)
    (r : FuturesPlannedRisk) (hr : r ∈ plan_risk_report s ctx risk_budget)
    (hnz : r.target_contracts ≠ 0) :
    r.risk_per_contract_eur =
      (risk_budget.budgetFor r.instrument).max_risk_per_position_eur /
        ((risk_budget.budgetFor r.instrument).max_contracts : ℚ) ∧
    r.total_risk_eur = r.risk_per_contract_eur * (r.target_contracts.natAbs : ℚ) := by
  unfold plan_risk_report plan_contracts_with_risk_internal at hr
  by_cases hb : ctx.risk_envelope.max_position_size_usd ≤ 0
  · rw [if_pos hb] at hr
    simp at hr
  · rw [if_neg hb] at hr
    obtain ⟨pr, hpr, rfl⟩ := List.mem_map.mp hr
    obtain ⟨p, hp, a, h1, h2, ha⟩ := planContractsGo_mem risk_budget _ _ _ pr hpr
    have hdir := plan_positions_dir s ctx risk_budget p hp
    rw [h2]
    have hnat : ((p.target_direction * a).natAbs : ℚ) = (a : ℚ) := by
      have habs : (p.target_direction * a).natAbs = a.natAbs := by
        rcases hdir with hd | hd <;> rw [hd]
        · rw [one_mul]
        · rw [neg_one_mul, Int.natAbs_neg]
      have hcast : ((a.natAbs : ℕ) : ℚ) = ((a.natAbs : ℤ) : ℚ) :=
        (Int.cast_natCast a.natAbs).symm
      rw [habs, hcast, Int.natAbs_of_nonneg ha.le]
    refine ⟨?_, ?_⟩
    · push_cast
      rfl
    · show _ * (a : ℚ) = _ * (((⟨p.instrument, p.target_direction * a, _, _⟩ :
        FuturesPlannedRisk).target_contracts).natAbs : ℚ)
      rw [show (⟨p.instrument, p.target_direction * a, _, _⟩ :
        FuturesPlannedRisk).target_contracts = p.target_direction * a from rfl, hnat]

/-! ## Concrete sleeve inputs for the witnesses -/

/-- A valid daily feature bar with unit prices, unit ATR/vols, strong
positive returns, and a 50-day high below the close (an upside breakout). -/
def wsBar : DailyFeatureBar :=
  { ts := 0, open_ := 1, high := 1, low := 1, close := 1, volume := 0
    atr_14 := 1, ret_20d := 1, ret_60d := 1, ret_120d := 1
    vol_20d := 1, vol_60d := 1, vol_120d := 1
    highest_close_50d := 1/2, lowest_close_50d := 1/4, fx_carry := Option.none }

def wsEnv : SleeveRiskEnvelope :=
  { sleeve_id := .microFuturesMacroTrend, sleeve_halt := .none, portfolio_halt := .none
    max_position_size_usd := 100, max_concurrent_positions := 3
    exposure_remaining_usd := 1000, margin_remaining_usd := 1000
    volatility_regime_scalar := 1, leverage_scalar := 1, portfolio_risk_state := .normal }

/-- 120 bars of `wsBar` for MES, a risk-on macro scalar of 2, a healthy
engine, and no current positions: the pipeline plans a full-size long. -/
def wsCtx : FuturesSleeveContext :=
  { as_of := 0, histories := [⟨.mes, List.replicate 120 wsBar⟩]
    macro_scalars := ⟨0, 2, 1⟩, risk_envelope := wsEnv
    current_positions := fun _ => 0, eur_per_usd := 92/100, engine_health := .healthy }

/-- The default sleeve with the constant-zero exponential model (making the
logistic conviction 1); the claims are proved for every model, so any
concrete choice is a valid witness instantiation. -/
def wsSleeve : MacroFuturesSleeve :=
  { cfg := MacroFuturesSleeveConfig.default, exp_model := fun _ => 0 }

def wsBudget : FuturesRiskBudget :=
  { mes := ⟨90, 3⟩, mnq := ⟨90, 3⟩, sixe := ⟨60, 3⟩, max_total_contracts := 3 }

/-- The single risk-report entry the pipeline produces on `wsCtx`. -/
def wsRisk : FuturesPlannedRisk :=
  { instrument := .mes, target_contracts := 3, risk_per_contract_eur := 30, total_risk_eur := 90 }

set_option maxRecDepth 40000 in
/-- Witness for C5: on the concrete context the report is `[wsRisk]` with a
nonzero target of 3 contracts, and the theorem yields `30 = 90 / 3` and
`90 = 30 × |3|`. -/
theorem plan_risk_report_budget_proportional_witness :
    wsRisk.risk_per_contract_eur =
      (wsBudget.budgetFor wsRisk.instrument).max_risk_per_position_eur /
        ((wsBudget.budgetFor wsRisk.instrument).max_contracts : ℚ) ∧
    wsRisk.total_risk_eur = wsRisk.risk_per_contract_eur * (wsRisk.target_contracts.natAbs : ℚ) :=
  plan_risk_report_budget_proportional wsSleeve wsCtx wsBudget wsRisk (by decide) (by decide)

/-- Degraded-health context with current positions MES = 2, MNQ = 0,
6E = −1 (and no halt), for the C1 witness. -/
def c1Positions : FutureInstrument → ℤ
  | .mes => 2
  | .mnq => 0
  | .sixE => -1

def c1Ctx : FuturesSleeveContext :=
  { as_of := 0, histories := [⟨.mes, List.replicate 120 wsBar⟩]
    macro_scalars := ⟨0, 2, 1⟩, risk_envelope := wsEnv
    current_positions := c1Positions, eur_per_usd := 92/100, engine_health := .degraded }

/-- Witness for C1: with `engine_health = Degraded`, the MES position of 2
receives exactly the flattening intent of −2. -/
theorem plan_order_intents_flatten_on_halt_or_degraded_witness :
    (plan_order_intents wsSleeve c1Ctx wsBudget).filter
      (fun oi => oi.instrument = FutureInstrument.mes) =
      [⟨FutureInstrument.mes, -2⟩] :=
  (plan_order_intents_flatten_on_halt_or_degraded wsSleeve c1Ctx wsBudget
    (Or.inl rfl) FutureInstrument.mes).1 (by decide)

/-! ## Claim C6: the sleeve risk-cap sanity check -/

/-- C6 counterexample to the claim as stated: on a context with no planned
risk the aggregate EUR risk `R` is 0, so the cap `0.5 × R = 0` is treated as
"unconstrained" and the check returns `Ok`, not `ExceedsCap` as the claim's
`cap 0.5R → ExceedsCap` clause demands. -/
theorem check_sleeve_risk_sanity_claim_counterexample :
    (aggregate_sleeve_risk wsSleeve
      ⟨0, [], ⟨0, 1, 1⟩, wsEnv, fun _ => 0, 1, .healthy⟩ wsBudget).total_risk_eur = 0 ∧
    check_sleeve_risk_sanity wsSleeve
      ⟨0, [], ⟨0, 1, 1⟩, wsEnv, fun _ => 0, 1, .healthy⟩ wsBudget
      ((1/2) * (aggregate_sleeve_risk wsSleeve
        ⟨0, [], ⟨0, 1, 1⟩, wsEnv, fun _ => 0, 1, .healthy⟩ wsBudget).total_risk_eur) =
      .ok := by
  constructor <;> decide

/-- C6 (amended): `check_sleeve_risk_sanity` returns `Ok` for every
non-positive cap (the non-finite case has no counterpart in the rational
model); for every positive cap it returns `Ok` iff the aggregate EUR risk is
at most the cap; and for an aggregate EUR risk `R > 0` the cap `2R` yields
`Ok` while the cap `0.5R` yields `ExceedsCap` (for `R = 0` the cap `0.5R`
is non-positive and hence `Ok`). -/
theorem check_sleeve_risk_sanity_cap_amended
    (s : MacroFuturesSleeve) (ctx : FuturesSleeveContext) (risk_budget : FuturesRiskBudget) :
    (∀ cap : ℚ, cap ≤ 0 → check_sleeve_risk_sanity s ctx risk_budget cap = .ok) ∧
    (∀ cap : ℚ, 0 < cap →
      (check_sleeve_risk_sanity s ctx risk_budget cap = .ok ↔
        (aggregate_sleeve_risk s ctx risk_budget).total_risk_eur ≤ cap)) ∧
    (0 < (aggregate_sleeve_risk s ctx risk_budget).total_risk_eur →
      check_sleeve_risk_sanity s ctx risk_budget
        (2 * (aggregate_sleeve_risk s ctx risk_budget).total_risk_eur) = .ok ∧
      check_sleeve_risk_sanity s ctx risk_budget
        ((1/2) * (aggregate_sleeve_risk s ctx risk_budget).total_risk_eur) = .exceedsCap) := by
  have hiff : ∀ cap : ℚ, 0 < cap →
      (check_sleeve_risk_sanity s ctx risk_budget cap = .ok ↔
        (aggregate_sleeve_risk s ctx risk_budget).total_risk_eur ≤ cap) := by
    intro cap hcap
    unfold check_sleeve_risk_sanity
    rw [if_neg (not_le.mpr hcap)]
    by_cases hgt : cap < (aggregate_sleeve_risk s ctx risk_budget).total_risk_eur
    · rw [if_pos hgt]
      constructor
      · intro h
        cases h
      · intro h
        exact absurd h (not_le.mpr hgt)
    · rw [if_neg hgt]
      exact ⟨fun _ => not_lt.mp hgt, fun _ => rfl⟩
  refine ⟨?_, hiff, ?_⟩
  · intro cap hcap
    unfold check_sleeve_risk_sanity
    rw [if_pos hcap]
  · intro hR
    constructor
    · exact (hiff _ (by linarith)).mpr (by linarith)
    · have h2 : (0 : ℚ) < (1/2) * (aggregate_sleeve_risk s ctx risk_budget).total_risk_eur := by
        linarith
      have := hiff _ h2
      rcases hc : check_sleeve_risk_sanity s ctx risk_budget
          ((1/2) * (aggregate_sleeve_risk s ctx risk_budget).total_risk_eur) with _ | _
      · exfalso
        have := this.mp hc
        linarith
      · rfl

set_option maxRecDepth 40000 in
/-- Witness for C6 (amended) on the concrete planning context: the
aggregate risk is 90 > 0, a cap of −1 is unconstrained (`Ok`), a cap of 100
is `Ok` iff 90 ≤ 100, the cap 180 is `Ok`, and the cap 45 exceeds. -/
theorem check_sleeve_risk_sanity_cap_amended_witness :
    check_sleeve_risk_sanity wsSleeve wsCtx wsBudget (-1) = .ok ∧
    (check_sleeve_risk_sanity wsSleeve wsCtx wsBudget 100 = .ok ↔
      (aggregate_sleeve_risk wsSleeve wsCtx wsBudget).total_risk_eur ≤ 100) ∧
    check_sleeve_risk_sanity wsSleeve wsCtx wsBudget
      (2 * (aggregate_sleeve_risk wsSleeve wsCtx wsBudget).total_risk_eur) = .ok ∧
    check_sleeve_risk_sanity wsSleeve wsCtx wsBudget
      ((1/2) * (aggregate_sleeve_risk wsSleeve wsCtx wsBudget).total_risk_eur) = .exceedsCap :=
  ⟨(check_sleeve_risk_sanity_cap_amended wsSleeve wsCtx wsBudget).1 (-1) (by norm_num),
   (check_sleeve_risk_sanity_cap_amended wsSleeve wsCtx wsBudget).2.1 100 (by norm_num),
   ((check_sleeve_risk_sanity_cap_amended wsSleeve wsCtx wsBudget).2.2 (by decide)).1,
   ((check_sleeve_risk_sanity_cap_amended wsSleeve wsCtx wsBudget).2.2 (by decide)).2⟩
